import Mathlib

/-!
# Verification of the BigBeautifulChecker backend

Shallow embedding, in Lean 4, of the deterministic parts of the
BigBeautifulChecker repository (a FastAPI backend around damage detection,
price projection, property valuation and listing scraping), together with
theorems checking the natural-language specification against the code.

Modelling conventions:
* Python floats are modelled as exact rationals (`ℚ`); `round(x, n)` is
  modelled as rounding to `n` decimal places at exact precision.
* Dictionaries with optional keys become structures with `Option` fields;
  `dict.get(k, d)` becomes `Option.getD`.
* Calls to external services (Gemini, ThinkImmo, HTTP fetches, `json.loads`)
  are modelled as explicit parameters or outcome values: the embedding covers
  the deterministic computation the code performs around them.
-/

/-- Python `round(x, 2)` at exact rational precision. -/
def round2 (q : ℚ) : ℚ := ((round (q * 100) : ℤ) : ℚ) / 100

/-- Python `round(x, 1)` at exact rational precision. -/
def round1 (q : ℚ) : ℚ := ((round (q * 10) : ℤ) : ℚ) / 10

/-- Python `s.lower()` (ASCII scope, which covers all strings compared here). -/
def toLowerStr (s : String) : String := String.mk (s.data.map Char.toLower)

/-- `needle` occurs as a contiguous sublist of `hay`. -/
def listInfix (needle hay : List Char) : Bool :=
  match hay with
  | [] => needle.isEmpty
  | c :: t => needle.isPrefixOf (c :: t) || listInfix needle t

/-- Python `needle in hay` on strings. -/
def containsSub (needle hay : String) : Bool := listInfix needle.data hay.data

/-- Right-nested concatenation of character-list segments. -/
def joinR : List (List Char) → List Char
  | [] => []
  | [s] => s
  | s :: rest => s ++ joinR rest

/-- Windowed infix search: checks each segment extended by the first
`t.length - 1` characters of the next one, so that no single check recurses
deeper than one segment (keeps kernel evaluation shallow on long strings). -/
def windowsCheck (t : List Char) : List (List Char) → Bool
  | [] => listInfix t []
  | [s] => listInfix t s
  | s :: b :: rest =>
    listInfix t (s ++ b.take (t.length - 1)) || windowsCheck t (b :: rest)

/-- Digit-string to number; `none` unless nonempty and all digits. -/
def digitsToNat? (cs : List Char) : Option Nat :=
  if cs.isEmpty then none
  else if cs.all (fun c => c.isDigit) then
    some (cs.foldl (fun n c => n * 10 + (c.toNat - 48)) 0)
  else none

/-- Python `int(s)` for a string: optional surrounding whitespace, optional
sign, decimal digits; `none` models `ValueError`.  (Underscore separators and
non-decimal bases are out of scope.) -/
def pyStrInt (s : String) : Option ℤ :=
  match (s.trim).data with
  | [] => none
  | c :: rest =>
    if c = ('-' : Char) then (digitsToNat? rest).map (fun n => -(n : ℤ))
    else if c = ('+' : Char) then (digitsToNat? rest).map (fun n => (n : ℤ))
    else (digitsToNat? (c :: rest)).map (fun n => (n : ℤ))

/-- Unsigned decimal literal `digits[.digits]` to an exact rational. -/
def parseDecimal (cs : List Char) : Option ℚ :=
  match cs.span (fun c => c.isDigit) with
  | (intPart, rest) =>
    match rest with
    | [] =>
      if intPart.isEmpty then none
      else (digitsToNat? intPart).map (fun n => (n : ℚ))
    | c :: frac =>
      if c = ('.' : Char) then
        if intPart.isEmpty && frac.isEmpty then none
        else if frac.all (fun d => d.isDigit) then
          some ((intPart.foldl (fun n d => n * 10 + (d.toNat - 48)) 0 : ℚ)
            + (frac.foldl (fun n d => n * 10 + (d.toNat - 48)) 0 : ℚ) / (10 : ℚ) ^ frac.length)
        else none
      else none

/-- Python `float(s)` for a string: optional surrounding whitespace, optional
sign, decimal digits with an optional decimal point; `none` models
`ValueError`.  (Exponent notation and `inf`/`nan` literals are out of
scope.) -/
def pyStrFloat (s : String) : Option ℚ :=
  match (s.trim).data with
  | [] => none
  | c :: rest =>
    if c = ('-' : Char) then (parseDecimal rest).map (fun q => -q)
    else if c = ('+' : Char) then parseDecimal rest
    else parseDecimal (c :: rest)

namespace AppEndpoints

/-- A `severity` value found in a detection annotation JSON object: an
integer or a string (the detection prompt asks for `"<severity_level>"`). -/
inductive JsonSeverity where
  | jint (n : ℤ)
  | jstr (s : String)
deriving DecidableEq, Repr

/-- The severity computation of the `/detect-and-price` handler
(src/backend/app.py, lines 199-207): `ann.get("severity", 3)`, string
values converted with `int(...)` (defaulting to 3 on `ValueError`), then
clamped with `max(1, min(5, severity))`. -/
def detect_and_price_severity (sev : Option JsonSeverity) : ℤ :=
  let s : ℤ :=
    match sev with
    | none => 3
    | some (.jint n) => n
    | some (.jstr v) => (pyStrInt v).getD 3
  max 1 (min 5 s)

/-- One entry of `PriceRequest.damage_items` (src/backend/app.py, lines
32-40): pydantic validates `severity` as an `int`, with no range check. -/
structure ReqDamageItem where
  item : String
  severity : ℤ
deriving DecidableEq, Repr

/-- The `/calculate-price` handler (src/backend/app.py, lines 121-152)
converts each pydantic model to a dict and forwards it unchanged to
`analyze_damages_for_endpoint`, which calls `analyze_damage` with
`severity=item["severity"]`; this is the severity list it passes on. -/
def calculate_price_forwarded_severities (damage_items : List ReqDamageItem) :
    List ℤ :=
  damage_items.map (fun d => d.severity)

end AppEndpoints

namespace GetBbox

/-- Python `os.path.basename` (POSIX separator). -/
def basename (p : String) : String := (p.splitOn ("/")).getLastD ("")

/-- Python `os.path.splitext(b)[0]` on a basename: cut at the last dot,
provided some non-dot character precedes it. -/
def splitextRoot (b : String) : String :=
  let cs := b.data
  match (cs.reverse).findIdx? (fun c => c == ('.' : Char)) with
  | none => b
  | some ridx =>
    let dotIdx := cs.length - 1 - ridx
    if (cs.take dotIdx).any (fun c => c != ('.' : Char)) then String.mk (cs.take dotIdx)
    else b

/-- Python `str.split('\n')` on characters (no collapsing of separators). -/
def splitOnNl (cs : List Char) : List (List Char) :=
  match cs with
  | [] => [[]]
  | c :: rest =>
    match splitOnNl rest with
    | [] => [[c]]
    | h :: t => if c = ('\n' : Char) then [] :: h :: t else (c :: h) :: t

/-- Python `str.strip()` (whitespace scope of `Char.isWhitespace`). -/
def pyStrip (cs : List Char) : List Char :=
  ((cs.dropWhile Char.isWhitespace).reverse.dropWhile Char.isWhitespace).reverse

/-- Python `'\n'.join(lines)`. -/
def joinNl : List (List Char) → List Char
  | [] => []
  | [l] => l
  | l :: rest => l ++ (('\n' : Char) :: joinNl rest)

/-- The code-fence stripping in `get_bbox` (src/backend/src/get_bbox.py,
lines 196-198): strip the response, split into lines, drop the first and
last line, and rejoin. -/
def stripFirstLastLines (response_text : String) : String :=
  String.mk (joinNl (((splitOnNl (pyStrip response_text.data)).drop 1).dropLast))

/-- A JSON value as `json.loads` produces it (an object is its key/value
list; `json.loads` keeps the last binding of a repeated key). -/
inductive Json where
  | null
  | bool (b : Bool)
  | num (q : ℚ)
  | str (s : String)
  | arr (items : List Json)
  | obj (fields : List (String × Json))

/-- Python dict lookup on a decoded object (last binding wins, as in
`json.loads`). -/
def jsonGet (fields : List (String × Json)) (key : String) : Option Json :=
  ((fields.filter (fun f => f.1 == key)).getLast?).map (fun f => f.2)

/-- A JSON value that Python arithmetic (`y0 / 1000 * width`) accepts:
a number or a bool (Python bools are ints). -/
def isNumJson : Json → Bool
  | .num _ => true
  | .bool _ => true
  | _ => false

/-- One iteration of the drawing loop (src/backend/src/get_bbox.py, lines
204-214) completes without raising: `item["box_2d"]` requires `item` to be an
object with that key (otherwise `TypeError`/`KeyError`), the unpacking
`y0, x0, y1, x1 = item["box_2d"]` followed by the `int(... / 1000 * ...)`
arithmetic requires a 4-element array of numbers, and `item["label"]` must be
present (`item.get("severity", 3)` and `get_severity_color`, whose `int(...)`
is wrapped in try/except, never raise; the `cv2` drawing calls are I/O). -/
def detectionItemOk (item : Json) : Bool :=
  match item with
  | .obj fields =>
    (match jsonGet fields ("box_2d") with
     | some (.arr [a, b, c, d]) => isNumJson a && isNumJson b && isNumJson c && isNumJson d
     | _ => false)
    && (jsonGet fields ("label")).isSome
  | _ => false

/-- The whole drawing loop `for item in response_json: ...` completes without
an uncaught exception: a list needs every item well formed; a non-empty
string or object iterates over characters/keys, whose first element fails at
`item["box_2d"]` (an empty one iterates zero times and succeeds); a number,
bool or `None` is not iterable, so the `for` statement itself raises. -/
def drawLoopOk : Json → Bool
  | .arr items => items.all detectionItemOk
  | .str s => s.isEmpty
  | .obj fields => fields.isEmpty
  | _ => false

/-- The annotation JSON returned by `get_bbox`; `annotation` is the decoded
detection payload. -/
structure BBoxResult where
  imageID : String
  detected_category : String
  annotation : Json

/-- How a call to `get_bbox` can end, as seen by its caller. -/
inductive GetBboxOutcome where
  | emptyDict
  | result (r : BBoxResult)
  | raised

/-- `get_bbox(path_to_image, destination_path)` (lines 187-223) around its
external effects: the category chosen for the image and the model response
text are inputs, and the JSON decoding of the stripped text is the `decode`
parameter (`json.loads`).  A decode failure (`JSONDecodeError`, the only
caught exception) returns the empty dict (`emptyDict`); on a decode success
the drawing loop runs, and a payload it cannot iterate as detections raises
an uncaught `TypeError`/`KeyError`/`ValueError` (`raised`), so only a
payload with `drawLoopOk` reaches the final return.  Reading the input
image, drawing and writing the annotated image are I/O, assumed to
succeed. -/
def get_bbox (decode : String → Option Json) (path_to_image : String)
    (detected_category : String) (response_text : String) : GetBboxOutcome :=
  match decode (stripFirstLastLines response_text) with
  | none => .emptyDict
  | some response_json =>
    if drawLoopOk response_json then
      .result { imageID := splitextRoot (basename path_to_image)
                detected_category := detected_category
                annotation := response_json }
    else .raised

end GetBbox

namespace Scraper

/-- `SUPPORTED_SITES` (src/backend/src/immo24_scraper.py, lines 34-37), in
dict insertion order. -/
def SUPPORTED_SITES : List (String × List String) :=
  [(("immoscout24"), [("immobilienscout24.de"), ("immoscout24.de"), ("immo24")]),
   (("immowelt"), [("immowelt.de")])]

/-- `_detect_site(url)` (lines 95-101): the first site key one of whose
patterns occurs in the lowercased URL. -/
def detect_site (url : String) : Option String :=
  let lower_url := toLowerStr url
  (SUPPORTED_SITES.find? (fun p => p.2.any (fun pat => containsSub pat lower_url))).map
    (fun p => p.1)

/-- Outcome of the site-specific fetch helpers (`_fetch_immowelt_listing`,
`_fetch_search_page`, `_fetch_single_listing`): a data dict, or a raised
network/runtime exception.  None of them raises `ValueError`: the only two
`raise ValueError` statements in the module are the ones in
`fetch_immo24_listing` itself, and the module wraps its own `float(...)`
conversions in try/except. -/
inductive BranchResult where
  | ok
  | exn (msg : String)
deriving DecidableEq, Repr

/-- How a call to `fetch_immo24_listing` ends, as seen by its caller. -/
inductive PyResult where
  | ok
  | valueError (msg : String)
  | otherError (msg : String)
deriving DecidableEq, Repr

def liftBranch : BranchResult → PyResult
  | .ok => .ok
  | .exn m => .otherError m

/-- `fetch_immo24_listing(url, max_images)` (lines 1074-1131): raises
`ValueError` for an empty URL or an unsupported site, otherwise dispatches
to the immowelt or immoscout24 fetch path. -/
def fetch_immo24_listing (url : String)
    (immowelt_fetch immoscout_fetch : BranchResult) : PyResult :=
  if url = ("") then
    .valueError ("Please provide a valid property listing URL.")
  else
    match detect_site url with
    | some site =>
      if site = ("immowelt") then liftBranch immowelt_fetch
      else liftBranch immoscout_fetch
    | none =>
      .valueError ("Unsupported property website. Please use one of the following:\nSupported sites: immoscout24 (immobilienscout24.de, immoscout24.de, immo24), immowelt (immowelt.de)\n\nRecommended: immowelt.de (more reliable, no bot blocking)")

/-- The HTTP response of the `/immo24/scrape` endpoint, reduced to status. -/
inductive HttpOutcome where
  | ok
  | error (status : Nat) (detail : String)
deriving DecidableEq, Repr

/-- `scrape_immo24_listing(request)` (src/backend/app.py, lines 271-302):
`ValueError` maps to HTTP 400 with the error text, any other exception to
HTTP 500, success passes the data through. -/
def scrape_immo24_listing (url : String)
    (immowelt_fetch immoscout_fetch : BranchResult) : HttpOutcome :=
  match fetch_immo24_listing url immowelt_fetch immoscout_fetch with
  | .ok => .ok
  | .valueError m => .error 400 m
  | .otherError m => .error 500 (("Unable to process listing: ") ++ m)

end Scraper

namespace PropertyValuation

/-- One element of `yearly_data` built by
`calculate_10year_valuation` (src/backend/src/property_valuation.py). -/
structure ValuationYear where
  year : ℤ
  property_value : ℚ
  annual_rental_income : ℚ
  cumulative_rental_income : ℚ
  maintenance_cost : ℚ
  net_annual_income : ℚ
  total_value : ℚ
  roi_percentage : ℚ
deriving DecidableEq, Repr

/-- The `10_year_summary` sub-dictionary of the valuation result. -/
structure ValuationSummary where
  final_property_value : ℚ
  total_rental_income : ℚ
  total_maintenance_costs : ℚ
  total_return : ℚ
  total_roi_percentage : ℚ
deriving DecidableEq, Repr

/-- The dictionary returned by `calculate_10year_valuation`
(`10_year_summary` is rendered as `ten_year_summary` since a Lean field name
cannot begin with a digit). -/
structure Valuation where
  initial_price : ℚ
  gross_return_percentage : ℚ
  appreciation_rate_percentage : ℚ
  annual_rental_income_initial : ℚ
  yearly_projections : List ValuationYear
  ten_year_summary : ValuationSummary
deriving DecidableEq, Repr

/-- `annual_rental_income * ((1 + appreciation_rate * 0.5) ** year)` where
`annual_rental_income = current_price * gross_return / 100` and
`gross_return = appreciation_rate * 100 * 2`. -/
def rentalIncome (P r : ℚ) (year : Nat) : ℚ :=
  (P * (r * 100 * 2) / 100) * (1 + r * (1/2)) ^ year

/-- Running value of `cumulative_rental` at the end of iteration `year`. -/
def cumulativeRental (P r : ℚ) (year : Nat) : ℚ :=
  ((List.range year).map (fun k => rentalIncome P r (k + 1))).sum

/-- The loop body of `calculate_10year_valuation` for one `year`
(`maintenance_factor = 0.01`). -/
def valuationRow (P r : ℚ) (year : Nat) : ValuationYear :=
  let property_value := P * (1 + r) ^ year
  let rental_income := rentalIncome P r year
  let cumulative_rental := cumulativeRental P r year
  let maintenance_cost := property_value * (1/100)
  let net_income := rental_income - maintenance_cost
  let total_value := property_value + cumulative_rental - maintenance_cost * (year : ℚ)
  let roi := ((total_value - P) / P) * 100
  { year := (year : ℤ)
    property_value := round2 property_value
    annual_rental_income := round2 rental_income
    cumulative_rental_income := round2 cumulative_rental
    maintenance_cost := round2 maintenance_cost
    net_annual_income := round2 net_income
    total_value := round2 total_value
    roi_percentage := round2 roi }

/-- `calculate_10year_valuation(current_price, appreciation_rate)`
(src/backend/src/property_valuation.py, lines 73-116).  `final` is
`yearly_data[-1]`, i.e. the row for year 10. -/
def calculate_10year_valuation (P r : ℚ) : Valuation :=
  let yearly := (List.range 10).map (fun i => valuationRow P r (i + 1))
  let final := valuationRow P r 10
  { initial_price := P
    gross_return_percentage := r * 100 * 2
    appreciation_rate_percentage := r * 100
    annual_rental_income_initial := round2 (P * (r * 100 * 2) / 100)
    yearly_projections := yearly
    ten_year_summary :=
      { final_property_value := final.property_value
        total_rental_income := final.cumulative_rental_income
        total_maintenance_costs := round2 (final.maintenance_cost * 10)
        total_return := round2 (final.total_value - P)
        total_roi_percentage := final.roi_percentage } }

/-- One element of the `results` array returned by the ThinkImmo API, keeping
the two fields `fetch_market_appreciation_rate` reads; a missing key is
`none`. -/
structure ThinkImmoResult where
  buyingPrice : Option ℚ
  grossReturn : Option ℚ
deriving DecidableEq, Repr

/-- Python truthiness of `r.get(key)` for a numeric field: both a missing key
(`None`) and a value of `0` are falsy. -/
def truthyQ : Option ℚ → Option ℚ
  | some q => if q = 0 then none else some q
  | none => none

/-- The decision logic of `fetch_market_appreciation_rate`
(src/backend/src/property_valuation.py, lines 9-71).  `api = none` models the
`except Exception` path (request error, bad status, or malformed body);
`api = some results` models a successful call returning `results`. -/
def fetch_market_appreciation_rate (current_price : ℚ)
    (api : Option (List ThinkImmoResult)) : ℚ :=
  match api with
  | none => 15/1000
  | some results =>
    if results.isEmpty then 15/1000
    else
      let similar0 := results.filter (fun t =>
        match truthyQ t.buyingPrice with
        | some b => decide (current_price * (7/10) ≤ b ∧ b ≤ current_price * (13/10))
        | none => false)
      let similar := if similar0.isEmpty then results.take 10 else similar0
      let gross_returns := similar.filterMap (fun t => truthyQ t.grossReturn)
      let avg_gross_return :=
        if gross_returns.isEmpty then 7/2
        else gross_returns.sum / (gross_returns.length : ℚ)
      if 5 < avg_gross_return then 25/1000
      else if 4 < avg_gross_return then 2/100
      else if 3 < avg_gross_return then 15/1000
      else 1/100

/-- Modelled from the spec: the selection rule exactly as claim C3 words it —
comparables are the results with a `buyingPrice` within 0.7x to 1.3x of
`current_price` (falling back to the first 10 results when none qualify), and
the thresholds are applied to the average of the comparables' gross returns.
Unlike the code, it does not drop zero values by Python truthiness and has no
3.5 default for an empty average. -/
def claimC3_rate (current_price : ℚ) (api : Option (List ThinkImmoResult)) : ℚ :=
  match api with
  | none => 15/1000
  | some results =>
    if results.isEmpty then 15/1000
    else
      let comparables0 := results.filter (fun t =>
        match t.buyingPrice with
        | some b => decide (current_price * (7/10) ≤ b ∧ b ≤ current_price * (13/10))
        | none => false)
      let comparables := if comparables0.isEmpty then results.take 10 else comparables0
      let grs := comparables.filterMap (fun t => t.grossReturn)
      let avg := grs.sum / (grs.length : ℚ)
      if 5 < avg then 25/1000
      else if 4 < avg then 2/100
      else if 3 < avg then 15/1000
      else 1/100

/-- Modelled from the spec (amended wording): as `claimC3_rate`, but a
`buyingPrice` or `grossReturn` that is missing *or zero* is ignored (Python
truthiness), and when no comparable contributes a gross return the average
defaults to 3.5, which selects 0.015. -/
def claimC3_amended_rate (current_price : ℚ)
    (api : Option (List ThinkImmoResult)) : ℚ :=
  match api with
  | none => 15/1000
  | some results =>
    if results.isEmpty then 15/1000
    else
      let comparables0 := results.filter (fun t =>
        (t.buyingPrice.getD 0 ≠ 0 : Bool)
          && decide (current_price * (7/10) ≤ t.buyingPrice.getD 0
                ∧ t.buyingPrice.getD 0 ≤ current_price * (13/10)))
      let comparables := if comparables0.isEmpty then results.take 10 else comparables0
      let grs := (comparables.filterMap (fun t => t.grossReturn)).filter
        (fun g => (g ≠ 0 : Bool))
      let avg := if grs.isEmpty then 7/2 else grs.sum / (grs.length : ℚ)
      if 5 < avg then 25/1000
      else if 4 < avg then 2/100
      else if 3 < avg then 15/1000
      else 1/100

end PropertyValuation

namespace PriceCalculator

/-- One entry of the `maintenance_schedule` list in the cost data parsed from
the LLM response; every key may be absent (`dict.get` with a default). -/
structure MaintEvent where
  year : Option ℤ
  cost_EUR : Option ℚ
  type : Option String
  description : Option String
deriving DecidableEq, Repr

/-- The `upfront_repair` sub-dictionary of the cost data. -/
structure UpfrontRepair where
  cost_EUR : Option ℚ
  description : Option String
deriving DecidableEq, Repr

/-- The `cost_data` dictionary handed to `calculate_10year_projection`. -/
structure CostData where
  upfront_repair : Option UpfrontRepair
  maintenance_schedule : Option (List MaintEvent)
deriving DecidableEq, Repr

/-- `cost_data.get('upfront_repair', {}).get('cost_EUR', 0)`. -/
def upfrontCostOf (cd : CostData) : ℚ :=
  ((cd.upfront_repair.getD ⟨none, none⟩).cost_EUR).getD 0

/-- `cost_data.get('upfront_repair', {}).get('description', 'Initial repair')`. -/
def upfrontDescOf (cd : CostData) : String :=
  ((cd.upfront_repair.getD ⟨none, none⟩).description).getD ("Initial repair")

/-- `cost_data.get('maintenance_schedule', [])`. -/
def scheduleOf (cd : CostData) : List MaintEvent :=
  cd.maintenance_schedule.getD []

/-- `INFLATION_RATE = 0.045` (4.5% per year). -/
def INFLATION_RATE : ℚ := 45/1000

/-- `CONTINGENCY_BUFFER = 0.15` (15%, applied to maintenance only). -/
def CONTINGENCY_BUFFER : ℚ := 15/100

/-- The events the `maintenance_map` holds for year `y` (`1 <= y <= 10`):
schedule entries whose `year` (default 0) equals `y`, in schedule order. -/
def maintEventsFor (cd : CostData) (y : Nat) : List MaintEvent :=
  (scheduleOf cd).filter (fun m => m.year.getD 0 = (y : ℤ))

/-- `base_maint_cost * (1 + CONTINGENCY_BUFFER) * ((1 + INFLATION_RATE) ** (year - 1))`. -/
def inflatedMaint (y : Nat) (base : ℚ) : ℚ :=
  base * (1 + CONTINGENCY_BUFFER) * (1 + INFLATION_RATE) ^ (y - 1)

/-- The (pre-rounding) `maintenance_cost` accumulated for year `y`. -/
def maintCostFor (cd : CostData) (y : Nat) : ℚ :=
  ((maintEventsFor cd y).map (fun m => inflatedMaint y (m.cost_EUR.getD 0))).sum

/-- The `descriptions` list for year `y`:
`maint.get('description', maint.get('type', 'Maintenance'))` per event. -/
def maintDescFor (cd : CostData) (y : Nat) : List String :=
  (maintEventsFor cd y).map (fun m => m.description.getD (m.type.getD ("Maintenance")))

/-- The running `cumulative_cost` after the iteration for year `y`
(`y = 0` is after the upfront block). -/
def cumulThrough (cd : CostData) (y : Nat) : ℚ :=
  upfrontCostOf cd + ((List.range y).map (fun k => maintCostFor cd (k + 1))).sum

/-- One row of the yearly breakdown table. -/
structure YearlyCost where
  year : ℤ
  upfront_cost : ℚ
  maintenance_cost : ℚ
  total_cost : ℚ
  cumulative_cost : ℚ
  work_description : String
  is_upfront : Bool
deriving DecidableEq, Repr

/-- The `year_0_data` row built by `calculate_10year_projection`. -/
def year0Cost (cd : CostData) : YearlyCost :=
  { year := 0
    upfront_cost := round2 (upfrontCostOf cd)
    maintenance_cost := 0
    total_cost := round2 (upfrontCostOf cd)
    cumulative_cost := round2 (upfrontCostOf cd)
    work_description :=
      if 0 < upfrontCostOf cd then upfrontDescOf cd else ("No immediate repair needed")
    is_upfront := true }

/-- The loop body of `calculate_10year_projection` for `year` in 1..10. -/
def yearlyCost (cd : CostData) (y : Nat) : YearlyCost :=
  { year := (y : ℤ)
    upfront_cost := 0
    maintenance_cost := round2 (maintCostFor cd y)
    total_cost := round2 (maintCostFor cd y)
    cumulative_cost := round2 (cumulThrough cd y)
    work_description :=
      if (maintDescFor cd y).isEmpty then ("No scheduled work")
      else String.intercalate (" + ") (maintDescFor cd y)
    is_upfront := false }

/-- The dictionary returned by `calculate_10year_projection`
(src/backend/src/price_calculator.py, lines 192-289).  The display-only
`summary` string and the `key_milestones` dict (plain copies of entries of
`year_0`/`yearly_costs`) are not modelled; the `breakdown` percentages are. -/
structure Projection where
  upfront_cost : ℚ
  total_maintenance_cost : ℚ
  total_10year_cost : ℚ
  year_0 : YearlyCost
  yearly_costs : List YearlyCost
  immediate_repair_pct : ℚ
  ongoing_maintenance_pct : ℚ
deriving DecidableEq, Repr

/-- `calculate_10year_projection(damage_item, cost_data, complete_data)`;
`damage_item` and `complete_data` are unused by the computation. -/
def calculate_10year_projection (cd : CostData) : Projection :=
  let yearly := (List.range 10).map (fun i => yearlyCost cd (i + 1))
  let total_maintenance := (yearly.map (fun yc => yc.maintenance_cost)).sum
  let cumulative := cumulThrough cd 10
  { upfront_cost := round2 (upfrontCostOf cd)
    total_maintenance_cost := round2 total_maintenance
    total_10year_cost := round2 cumulative
    year_0 := year0Cost cd
    yearly_costs := yearly
    immediate_repair_pct :=
      if 0 < cumulative then round1 (upfrontCostOf cd / cumulative * 100) else round1 0
    ongoing_maintenance_pct :=
      if 0 < cumulative then round1 (total_maintenance / cumulative * 100) else round1 0 }

/-- The schedule restricted to events whose year lies in 1..10. -/
def scheduleInRange (cd : CostData) : CostData :=
  ⟨cd.upfront_repair,
   some ((scheduleOf cd).filter
     (fun m => decide (1 ≤ m.year.getD 0) && decide (m.year.getD 0 ≤ 10)))⟩

/-- Segments of the `complete_missing_data_prompt` template for damage types
NOT found in the database (src/backend/src/price_calculator.py, lines 63-95);
the full prompt is their concatenation with `damage_item` interpolated after
`unkSeg1`. -/
def unkSeg1 : String :=
  ("You are an expert in building maintenance and repair cost estimation for Swiss/EU markets.\n\nThe damage type \"")

def unkSeg2 : String :=
  ("\" was NOT found in the standard building components database.\n\nAnalyze this damage and provide REALISTIC repair cost estimates:\n\nIMPORTANT GUIDELINES:\n")

def unkSeg3 : String :=
  ("1. Distinguish between immediate repair needs vs. long-term maintenance\n2. For structural damage (walls, floors, ceilings): Minimum 150-300 EUR/m²\n")

def unkSeg4 : String :=
  ("3. Include ALL costs: materials, Swiss labor rates (80-120 EUR/hour), disposal, permits\n4. Add realistic markup: 20-30% for project overhead and contingencies\n")

def unkSeg5 : String :=
  ("5. Consider hidden damage that may be discovered during repair\n\nDAMAGE-SPECIFIC ESTIMATES:\n- Wall damage/cracks: 250-500 EUR/m² for severe damage, 50-150 EUR/m² for minor\n")

def unkSeg6 : String :=
  ("- Water damage: Include source repair + affected area restoration + mold prevention\n- Mold remediation: 50-150 EUR/m² + source elimination\n- Electrical issues: 80-120 EUR/hour + materials + permits (min 300 EUR)\n")

def unkSeg7 : String :=
  ("- Broken windows: 300-1500 EUR per window\n- Paint damage: 30-60 EUR/m² for repainting\n- Plumbing leaks: 200-800 EUR for simple fixes, 1000+ EUR for major work\n\nReturn ONLY valid JSON:\n\x7b\n")

def unkSeg8 : String :=
  ("    \"lifespan_years\": <estimated years before next major work>,\n    \"price_type\": \"<Repair/Replacement/Remediation>\",\n    \"price_EUR\": <realistic base cost per unit>,\n    \"unit\": \"<per piece/per m²/per m/per hour>\",\n")

def unkSeg9 : String :=
  ("    \"category\": \"<Building Envelope/Heating/Plumbing/Electrical/etc>\",\n    \"reasoning\": \"<brief explanation of cost basis>\"\n\x7d")

/-- Segments of the `complete_missing_data_prompt` template for items found
in the database but with missing data (lines 96-123); interpolations follow
the source f-string. -/
def knoSeg1 : String :=
  ("You are an expert in building maintenance and repair cost estimation for Swiss/EU markets.\n\nItem: \"")

def knoSeg2 : String :=
  ("\"\nKnown data:\n- Category: ")

def knoSeg3 : String :=
  ("\n- Lifespan: ")

def knoSeg4 : String :=
  (" years\n- Price Type: ")

def knoSeg5 : String :=
  ("\n- Price: ")

def knoSeg6 : String :=
  (" EUR\n- Unit: ")

def knoSeg7 : String :=
  ("\n\nComplete the missing fields (marked as \x27-\x27 or \x27Missing\x27) with REALISTIC estimates for Swiss/EU markets.\n\nGUIDELINES:\n- Swiss labor: 80-120 EUR/hour\n- Materials markup: 20-30% over wholesale\n")

def knoSeg8 : String :=
  ("- Include installation/disposal costs\n- Be realistic, not optimistic\n\nReturn ONLY valid JSON:\n\x7b\n    \"lifespan_years\": <number or use existing>,\n    \"price_type\": \"<Replacement/Repair/New Coat>\",\n")

def knoSeg9 : String :=
  ("    \"price_EUR\": <cost per unit>,\n    \"unit\": \"<per piece/per m²/per m>\",\n    \"reasoning\": \"<brief explanation>\"\n\x7d")

/-- Segments of the `calculate_upfront_and_maintenance_prompt` template
(lines 127-188); interpolations follow the source f-string. -/
def upfSeg1 : String :=
  ("You are an expert maintenance scheduler for building components in Swiss/EU markets.\n\nCOMPONENT INFORMATION:\n- Item: ")

def upfSeg2 : String :=
  ("\n- Category: ")

def upfSeg3 : String :=
  ("\n- Normal Lifespan: ")

def upfSeg4 : String :=
  (" years\n- Base Cost: ")

def upfSeg5 : String :=
  (" EUR ")

def upfSeg6 : String :=
  ("\n- Damage Severity: ")

def upfSeg7 : String :=
  ("/5 (1=minimal, 5=critical/destroyed)\n\nYOUR TASK: Calculate TWO separate cost components:\n\n1. UPFRONT REPAIR COST (if severity >= 2):\n   - This is the IMMEDIATE cost to fix the existing damage\n")

def upfSeg8 : String :=
  ("   - Apply severity multipliers:\n     * Severity 2 (Minor): 1.2-1.5x base cost\n     * Severity 3 (Moderate): 1.5-2.0x base cost\n     * Severity 4 (Severe): 2.0-2.8x base cost\n")

def upfSeg9 : String :=
  ("     * Severity 5 (Critical): 2.5-3.5x base cost\n   - Include emergency repair premium if severity >= 4\n   - Add 20-35% contingency for hidden damage\n")

def upfSeg10 : String :=
  ("   - If severity = 1, upfront cost should be 0 or minimal inspection cost\n\n2. MAINTENANCE SCHEDULE (10-year outlook):\n   - Regular maintenance events to PREVENT future problems\n")

def upfSeg11 : String :=
  ("   - Based on normal lifespan, NOT on current damage\n   - Be MODERATE and REALISTIC:\n     * Most items: 1-2 maintenance events over 10 years\n     * Critical systems: Maybe 2-3 events\n     * Simple components: 0-1 events\n")

def upfSeg12 : String :=
  ("   - Typical maintenance costs: 10-20% of replacement cost\n   - Inspection costs: 150-300 EUR (only if truly necessary)\n\nIMPORTANT:\n- Upfront cost is a ONE-TIME expense (year 0 or year 1)\n")

def upfSeg13 : String :=
  ("- Maintenance is ongoing scheduled work\n- Don\x27t double-count - if upfront replaces the component, adjust maintenance accordingly\n- Don\x27t over-schedule maintenance\n\nReturn ONLY valid JSON:\n\x7b\n    \"upfront_repair\": \x7b\n")

def upfSeg14 : String :=
  ("        \"cost_EUR\": <total upfront cost, 0 if severity=1>,\n        \"description\": \"<what will be repaired/replaced>\",\n        \"severity_multiplier\": <actual multiplier used>,\n        \"includes_contingency\": true\n    \x7d,\n")

def upfSeg15 : String :=
  ("    \"maintenance_schedule\": [\n        \x7b\n            \"year\": <1-10>,\n            \"type\": \"<Inspection/Maintenance/Minor Repair>\",\n            \"cost_EUR\": <cost>,\n            \"description\": \"<what maintenance work>\"\n")

def upfSeg16 : String :=
  ("        \x7d\n        // 0-3 events total - be moderate!\n    ],\n    \"reasoning\": \"<explain the upfront cost calculation and maintenance plan>\"\n\x7d")

/-- `complete_missing_data_prompt(damage_item, partial_data)`: the special
prompt when the item was not found (`partial_data.get('Category') ==
'Unknown'`), otherwise the completion prompt; the `category`, `lifespan`,
`price_type`, `price` and `unit` arguments are the displayed values of the
corresponding `partial_data` entries. -/
def complete_missing_data_prompt (damage_item category lifespan price_type price unit :
    String) : String :=
  if category = ("Unknown") then
    unkSeg1 ++ damage_item ++ unkSeg2 ++ unkSeg3 ++ unkSeg4 ++ unkSeg5 ++ unkSeg6
      ++ unkSeg7 ++ unkSeg8 ++ unkSeg9
  else
    knoSeg1 ++ damage_item ++ knoSeg2 ++ category ++ knoSeg3 ++ lifespan ++ knoSeg4
      ++ price_type ++ knoSeg5 ++ price ++ knoSeg6 ++ unit ++ knoSeg7 ++ knoSeg8
      ++ knoSeg9

/-- `calculate_upfront_and_maintenance_prompt(damage_item, complete_data,
severity)`; the string arguments are the displayed `complete_data` values. -/
def calculate_upfront_and_maintenance_prompt (damage_item category lifespan price unit :
    String) (severity : ℤ) : String :=
  upfSeg1 ++ damage_item ++ upfSeg2 ++ category ++ upfSeg3 ++ lifespan ++ upfSeg4
    ++ price ++ upfSeg5 ++ unit ++ upfSeg6 ++ toString severity ++ upfSeg7 ++ upfSeg8
    ++ upfSeg9 ++ upfSeg10 ++ upfSeg11 ++ upfSeg12 ++ upfSeg13 ++ upfSeg14 ++ upfSeg15
    ++ upfSeg16

/-- The three ways `call_ai_model(prompt, use_mock)` can respond. -/
inductive AIResponse where
  | mockCompletion
  | mockUpfront
  | realApiCall
deriving DecidableEq, Repr

/-- The dispatch logic of `call_ai_model` (src/backend/src/price_calculator.py,
lines 296-332): when `use_mock` is set and the lowercased prompt contains one
of the trigger phrases, a canned JSON string is returned; otherwise
(`realApiCall`) the function falls through to the Gemini API request. -/
def call_ai_model (prompt : String) (use_mock : Bool) : AIResponse :=
  if use_mock
      && (containsSub ("complete missing data") (toLowerStr prompt)
            || containsSub ("complete the missing") (toLowerStr prompt)) then
    .mockCompletion
  else if use_mock
      && (containsSub ("calculate upfront") (toLowerStr prompt)
            || containsSub ("upfront repair cost") (toLowerStr prompt)) then
    .mockUpfront
  else
    .realApiCall

/-- Lowercased segment decomposition of the unknown-item prompt (the short
interpolated `damage_item` is merged with its right neighbour so every
segment is longer than the mock trigger phrases). -/
def unkSegsLC (item : String) : List (List Char) :=
  [ unkSeg1.data.map Char.toLower
  , (item.data.map Char.toLower ++ unkSeg2.data.map Char.toLower)
  , unkSeg3.data.map Char.toLower
  , unkSeg4.data.map Char.toLower
  , unkSeg5.data.map Char.toLower
  , unkSeg6.data.map Char.toLower
  , unkSeg7.data.map Char.toLower
  , unkSeg8.data.map Char.toLower
  , unkSeg9.data.map Char.toLower ]

/-- Lowercased segment decomposition of the known-item completion prompt
(all interpolated values merged into one middle segment). -/
def knoSegsLC (item category lifespan price_type price unit : String) :
    List (List Char) :=
  [ knoSeg1.data.map Char.toLower
  , (item.data.map Char.toLower ++ knoSeg2.data.map Char.toLower
      ++ category.data.map Char.toLower ++ knoSeg3.data.map Char.toLower
      ++ lifespan.data.map Char.toLower ++ knoSeg4.data.map Char.toLower
      ++ price_type.data.map Char.toLower ++ knoSeg5.data.map Char.toLower
      ++ price.data.map Char.toLower ++ knoSeg6.data.map Char.toLower
      ++ unit.data.map Char.toLower)
  , knoSeg7.data.map Char.toLower
  , knoSeg8.data.map Char.toLower
  , knoSeg9.data.map Char.toLower ]

/-- Lowercased segment decomposition of the upfront-and-maintenance prompt
(all interpolated values merged into one middle segment). -/
def upfSegsLC (item category lifespan price unit : String) (severity : ℤ) :
    List (List Char) :=
  [ upfSeg1.data.map Char.toLower
  , (item.data.map Char.toLower ++ upfSeg2.data.map Char.toLower
      ++ category.data.map Char.toLower ++ upfSeg3.data.map Char.toLower
      ++ lifespan.data.map Char.toLower ++ upfSeg4.data.map Char.toLower
      ++ price.data.map Char.toLower ++ upfSeg5.data.map Char.toLower
      ++ unit.data.map Char.toLower ++ upfSeg6.data.map Char.toLower
      ++ (toString severity).data.map Char.toLower)
  , upfSeg7.data.map Char.toLower
  , upfSeg8.data.map Char.toLower
  , upfSeg9.data.map Char.toLower
  , upfSeg10.data.map Char.toLower
  , upfSeg11.data.map Char.toLower
  , upfSeg12.data.map Char.toLower
  , upfSeg13.data.map Char.toLower
  , upfSeg14.data.map Char.toLower
  , upfSeg15.data.map Char.toLower
  , upfSeg16.data.map Char.toLower ]

/-- A pandas cell as read from the damage-database CSV: missing (`NaN`), a
string, or a number. -/
inductive Cell where
  | nan
  | str (v : String)
  | num (q : ℚ)
deriving DecidableEq, Repr

/-- Python `int(x)` on a cell value: floats truncate toward zero, strings
parse as decimal integers; `none` models the exception path.  (Within
`parse_csv_data` a NaN cell never reaches this conversion.) -/
def pyCellInt : Cell → Option ℤ
  | .nan => none
  | .num q => some (Int.tdiv q.num (q.den : ℤ))
  | .str v => pyStrInt v

/-- Python `float(x)` on a cell value. -/
def pyCellFloat : Cell → Option ℚ
  | .nan => none
  | .num q => some q
  | .str v => pyStrFloat v

/-- Python `str(x)` display of a cell (rendering detail only). -/
def cellStr : Cell → String
  | .nan => ("nan")
  | .num q => toString q
  | .str v => v

/-- `x == '-' or pd.isna(x)`. -/
def isDashOrNaN : Cell → Bool
  | .nan => true
  | .str v => v == ("-")
  | .num _ => false

/-- One row of the CSV damage database, keeping the columns
`price_calculator.py` reads. -/
structure CsvRow where
  category : Cell
  item_subitem : Cell
  lifespan_years : Cell
  price_type : Cell
  price_EUR : Cell
  unit : Cell
deriving DecidableEq, Repr

/-- The `complete_data` dictionary (component data) used by the pipeline. -/
structure ComponentData where
  category : String
  item : String
  lifespan_years : ℤ
  price_type : String
  price_EUR : ℚ
  unit : String
  source : String
deriving DecidableEq, Repr

/-- `parse_csv_data(item_data)` (src/backend/src/price_calculator.py, lines
22-53): `none` when a critical field is `'-'`/NaN or a conversion fails,
otherwise the parsed component data with source `'csv_direct'`. -/
def parse_csv_data (row : CsvRow) : Option ComponentData :=
  if isDashOrNaN row.price_EUR || isDashOrNaN row.unit
      || isDashOrNaN row.lifespan_years || isDashOrNaN row.price_type then
    none
  else
    match pyCellInt row.lifespan_years, pyCellFloat row.price_EUR with
    | some l, some p =>
      some { category := cellStr row.category, item := cellStr row.item_subitem,
             lifespan_years := l, price_type := cellStr row.price_type,
             price_EUR := p, unit := cellStr row.unit, source := ("csv_direct") }
    | _, _ => none

/-- `find_damage_in_csv(df, damage_item)` (lines 16-20): case-insensitive
literal substring match on the `Item/Subitem` column; non-string cells drop
out (`na=False`). -/
def find_damage_in_csv (df : List CsvRow) (damage_item : String) : List CsvRow :=
  df.filter (fun r =>
    match r.item_subitem with
    | .str v => containsSub (toLowerStr damage_item) (toLowerStr v)
    | _ => false)

/-- The outcome of the data-completion LLM call as `analyze_damage` reads it:
the response JSON parses with the expected fields, or `json.loads` raises. -/
inductive LLMCompletion where
  | parsed (lifespan_years : ℤ) (price_type : String) (price_EUR : ℚ)
      (unit : String) (category : Option String)
  | parseError
deriving DecidableEq, Repr

/-- Steps 1-2 of `analyze_damage` (lines 335-409): CSV lookup
(`matches.iloc[0]` is the head of the match list), direct parse when the data
is complete, otherwise the data-completion LLM call with outcome `llm`;
returns `complete_data` together with whether that LLM call was made. -/
def analyze_damage_data_step (damage_item : String) (df : List CsvRow)
    (llm : LLMCompletion) : ComponentData × Bool :=
  match (find_damage_in_csv df damage_item).head? with
  | none =>
    ( match llm with
      | .parsed l pt p u cat =>
        { category := cat.getD ("Building Envelope"), item := damage_item,
          lifespan_years := l, price_type := pt, price_EUR := p, unit := u,
          source := ("llm_completed") }
      | .parseError =>
        { category := ("Unknown"), item := damage_item, lifespan_years := 20,
          price_type := ("Repair"), price_EUR := 1000, unit := ("per piece"),
          source := ("fallback") }
    , true)
  | some row =>
    match parse_csv_data row with
    | some data => (data, false)
    | none =>
      ( match llm with
        | .parsed l pt p u _ =>
          { category := cellStr row.category, item := cellStr row.item_subitem,
            lifespan_years := l, price_type := pt, price_EUR := p, unit := u,
            source := ("llm_completed") }
        | .parseError =>
          { category := cellStr row.category, item := damage_item,
            lifespan_years := 20, price_type := ("Repair"), price_EUR := 1000,
            unit := ("per piece"), source := ("fallback") }
      , true)

/-- The `cost_data` produced by the mock upfront-and-maintenance response of
`call_ai_model` (used as a concrete test vector). -/
def mockCostData : CostData :=
  { upfront_repair := some
      { cost_EUR := some 1200
        description := some ("Replace damaged component with modern equivalent") }
    maintenance_schedule := some
      [ { year := some 5, cost_EUR := some 200, type := some ("Inspection")
          description := some ("Mid-term inspection") }
      , { year := some 9, cost_EUR := some 350, type := some ("Minor maintenance")
          description := some ("Preventive maintenance") } ] }

end PriceCalculator

lemma listInfix_iff (t h : List Char) : listInfix t h = true ↔ t <:+: h := by
  induction h with
  | nil => simp [listInfix, List.isEmpty_iff]
  | cons c h ih =>
    simp only [listInfix, Bool.or_eq_true, List.isPrefixOf_iff_prefix, ih]
    exact (List.infix_cons_iff).symm

lemma infix_append_split (t A B : List Char) (ht : t ≠ []) :
    t <:+: A ++ B ↔ (t <:+: A ++ B.take (t.length - 1) ∨ t <:+: B) := by
  have hn : 1 ≤ t.length := List.length_pos.mpr ht
  constructor
  · rintro ⟨u, v, huv⟩
    by_cases hu : u.length < A.length
    · left
      have h1 := congrArg (fun l => l.take (A.length + (t.length - 1))) huv
      simp only [List.take_append_eq_append_take] at h1
      rw [List.take_of_length_le (by omega : u.length ≤ A.length + (t.length - 1)),
        List.take_of_length_le
          (by omega : t.length ≤ A.length + (t.length - 1) - u.length),
        List.take_of_length_le (by omega : A.length ≤ A.length + (t.length - 1)),
        Nat.add_sub_cancel_left] at h1
      exact ⟨u, _, h1⟩
    · right
      have h2 := congrArg (fun l => l.drop A.length) huv
      simp only [List.drop_append_eq_append_drop] at h2
      have hz : A.length - (u ++ t).length = 0 := by
        rw [List.length_append]; omega
      rw [(by omega : A.length - u.length = 0), List.drop_zero, List.drop_length, hz,
        List.drop_zero, List.nil_append, Nat.sub_self, List.drop_zero] at h2
      exact ⟨u.drop A.length, v, h2⟩
  · rintro (h | h)
    · refine h.trans ⟨[], B.drop (t.length - 1), ?_⟩
      simp [List.append_assoc]
    · obtain ⟨u, v, h⟩ := h
      exact ⟨A ++ u, v, by rw [← h]; simp [List.append_assoc]⟩

lemma listInfix_append_split (t A B : List Char) (ht : t ≠ []) :
    listInfix t (A ++ B)
      = (listInfix t (A ++ B.take (t.length - 1)) || listInfix t B) := by
  rw [Bool.eq_iff_iff, Bool.or_eq_true, listInfix_iff, listInfix_iff, listInfix_iff]
  exact infix_append_split t A B ht

lemma take_append_of_le (k : Nat) (b C : List Char) (h : k ≤ b.length) :
    (b ++ C).take k = b.take k := by
  rw [List.take_append_eq_append_take, (by omega : k - b.length = 0), List.take_zero,
    List.append_nil]

lemma listInfix_joinR (t : List Char) (ht : t ≠ [])
    (segs : List (List Char)) (hlen : ∀ s ∈ segs, t.length - 1 ≤ s.length) :
    listInfix t (joinR segs) = windowsCheck t segs := by
  induction segs with
  | nil => rfl
  | cons s rest ih =>
    match rest with
    | [] => rfl
    | b :: rest2 =>
      have hb : t.length - 1 ≤ b.length := hlen b (by simp)
      show listInfix t (s ++ joinR (b :: rest2)) = _
      have hjoin : joinR (b :: rest2) = b ++ joinR rest2 := by
        match rest2 with
        | [] => simp [joinR]
        | c :: r3 => rfl
      rw [listInfix_append_split t s (joinR (b :: rest2)) ht, hjoin,
        take_append_of_le _ b (joinR rest2) hb, ← hjoin,
        ih (fun x hx => hlen x (by simp [hx]))]
      rfl

lemma containsSub_eval (needle hay : String) (segs : List (List Char))
    (hn : needle.data ≠ []) (hlen : ∀ s ∈ segs, needle.data.length - 1 ≤ s.length)
    (hhay : hay.data = joinR segs) :
    containsSub needle hay = windowsCheck needle.data segs := by
  unfold containsSub
  rw [hhay, listInfix_joinR _ hn _ hlen]

namespace PropertyValuation

lemma buyingPrice_truthy_filter (cp : ℚ) (t : ThinkImmoResult) :
    (match truthyQ t.buyingPrice with
      | some b => decide (cp * (7/10) ≤ b ∧ b ≤ cp * (13/10))
      | none => false)
    = ((t.buyingPrice.getD 0 ≠ 0 : Bool)
        && decide (cp * (7/10) ≤ t.buyingPrice.getD 0
              ∧ t.buyingPrice.getD 0 ≤ cp * (13/10))) := by
  cases h : t.buyingPrice with
  | none => simp [truthyQ]
  | some b =>
    by_cases hb : b = 0 <;> simp [truthyQ, hb]

lemma grossReturn_truthy_filterMap (l : List ThinkImmoResult) :
    l.filterMap (fun t => truthyQ t.grossReturn)
      = (l.filterMap (fun t => t.grossReturn)).filter (fun g => (g ≠ 0 : Bool)) := by
  induction l with
  | nil => rfl
  | cons t l ih =>
    rw [List.filterMap_cons, List.filterMap_cons]
    cases h : t.grossReturn with
    | none => simpa [truthyQ] using ih
    | some g =>
      by_cases hg : g = 0
      · simpa [truthyQ, hg, List.filter_cons] using ih
      · simpa [truthyQ, hg, List.filter_cons] using ih

end PropertyValuation

open PropertyValuation in
/-- **C3 (counterexample).** With current price 100 and a successful API call
returning the single listing `{buyingPrice: 100, grossReturn: 0}`, the rule
stated by the claim selects 0.01 (the one comparable has average gross return
0, which is not above any threshold), but the code returns 0.015: Python
truthiness drops the zero `grossReturn`, leaving no gross returns, so the
average defaults to 3.5. -/
theorem C3_rate_counterexample :
    claimC3_rate 100 (some [⟨some 100, some 0⟩]) = 1/100
    ∧ fetch_market_appreciation_rate 100 (some [⟨some 100, some 0⟩]) = 15/1000
    ∧ (15/1000 : ℚ) ≠ 1/100 := by
  refine ⟨?_, ?_, by norm_num⟩
  · norm_num [claimC3_rate, List.filter, List.filterMap]
  · norm_num [fetch_market_appreciation_rate, truthyQ, List.filter, List.filterMap]

open PropertyValuation in
/-- **C3 (amended).** `fetch_market_appreciation_rate` always returns one of
the four rates 0.01, 0.015, 0.02, 0.025, and it behaves exactly as the claim
states once missing-or-zero `buyingPrice`/`grossReturn` values are ignored
(Python truthiness) and an empty gross-return average defaults to 3.5 (giving
0.015); an API failure or an empty result list also gives 0.015. -/
theorem C3_rate_amended (cp : ℚ) (api : Option (List ThinkImmoResult)) :
    fetch_market_appreciation_rate cp api = claimC3_amended_rate cp api
    ∧ fetch_market_appreciation_rate cp api
        ∈ [(1/100 : ℚ), 15/1000, 2/100, 25/1000]
    ∧ fetch_market_appreciation_rate cp none = 15/1000
    ∧ fetch_market_appreciation_rate cp (some []) = 15/1000 := by
  refine ⟨?_, ?_, rfl, rfl⟩
  · cases api with
    | none => rfl
    | some results =>
      simp only [fetch_market_appreciation_rate, claimC3_amended_rate]
      rw [List.filter_congr (fun t _ => buyingPrice_truthy_filter cp t),
        grossReturn_truthy_filterMap]
  · cases api with
    | none => simp [fetch_market_appreciation_rate]
    | some results =>
      simp only [fetch_market_appreciation_rate]
      split_ifs <;> simp

open PropertyValuation in
/-- **C9 (counterexample).** At current price 100 and appreciation rate 1,
the `total_maintenance_costs` summary field (10240) is not the sum of the ten
yearly `maintenance_cost` values (2046): the code multiplies the *final*
year's maintenance cost by 10 instead of summing the ten values. -/
theorem C9_total_maintenance_counterexample :
    ¬ ((calculate_10year_valuation 100 1).ten_year_summary.total_maintenance_costs
        = ((calculate_10year_valuation 100 1).yearly_projections.map
            (fun e => e.maintenance_cost)).sum) := by
  norm_num [calculate_10year_valuation, valuationRow, rentalIncome, cumulativeRental,
    round2, round_eq, List.range_succ]

open PropertyValuation in
/-- **C9 (amended).** In every result of `calculate_10year_valuation`, the
`total_maintenance_costs` summary field equals 10 times the year-10
maintenance cost (1% of the year-10 property value, rounded to two decimals),
rounded again to two decimals — not the sum of the ten yearly values. -/
theorem C9_total_maintenance_amended (P r : ℚ) :
    (calculate_10year_valuation P r).ten_year_summary.total_maintenance_costs
      = round2 (10 * round2 ((P * (1 + r) ^ 10) * (1 / 100))) := by
  simp only [calculate_10year_valuation, valuationRow]
  exact congrArg round2 (by ring)

namespace PriceCalculator

lemma maintEventsFor_scheduleInRange (cd : CostData) (y : Nat)
    (h1 : 1 ≤ y) (h2 : y ≤ 10) :
    maintEventsFor (scheduleInRange cd) y = maintEventsFor cd y := by
  unfold maintEventsFor scheduleInRange scheduleOf
  simp only [Option.getD_some]
  rw [List.filter_filter]
  refine List.filter_congr (fun m _ => ?_)
  by_cases hm : m.year.getD 0 = (y : ℤ)
  · simp only [hm, decide_eq_true_eq]
    simp only [Bool.and_eq_true, decide_eq_true_eq, eq_self_iff_true, true_and,
      Bool.true_and, decide_True]
    have : (1 : ℤ) ≤ (y : ℤ) ∧ (y : ℤ) ≤ 10 := by omega
    simp [this.1, this.2]
  · simp [hm]

lemma maintCostFor_scheduleInRange (cd : CostData) (y : Nat)
    (h1 : 1 ≤ y) (h2 : y ≤ 10) :
    maintCostFor (scheduleInRange cd) y = maintCostFor cd y := by
  unfold maintCostFor
  rw [maintEventsFor_scheduleInRange cd y h1 h2]

lemma maintDescFor_scheduleInRange (cd : CostData) (y : Nat)
    (h1 : 1 ≤ y) (h2 : y ≤ 10) :
    maintDescFor (scheduleInRange cd) y = maintDescFor cd y := by
  unfold maintDescFor
  rw [maintEventsFor_scheduleInRange cd y h1 h2]

lemma cumulThrough_scheduleInRange (cd : CostData) (y : Nat) (h2 : y ≤ 10) :
    cumulThrough (scheduleInRange cd) y = cumulThrough cd y := by
  unfold cumulThrough
  refine congrArg (fun s => upfrontCostOf cd + s) (congrArg List.sum ?_)
  refine List.map_congr_left (fun k hk => ?_)
  have hk10 : k < y := List.mem_range.mp hk
  exact maintCostFor_scheduleInRange cd (k + 1) (by omega) (by omega)

lemma yearlyCost_scheduleInRange (cd : CostData) (y : Nat)
    (h1 : 1 ≤ y) (h2 : y ≤ 10) :
    yearlyCost (scheduleInRange cd) y = yearlyCost cd y := by
  unfold yearlyCost
  rw [maintCostFor_scheduleInRange cd y h1 h2, maintDescFor_scheduleInRange cd y h1 h2,
    cumulThrough_scheduleInRange cd y h2]

/-- Maintenance events scheduled outside years 1..10 have no effect on the
projection: only the in-range part of the schedule matters. -/
lemma projection_scheduleInRange (cd : CostData) :
    calculate_10year_projection cd = calculate_10year_projection (scheduleInRange cd) := by
  have hY : (List.range 10).map (fun i => yearlyCost (scheduleInRange cd) (i + 1))
      = (List.range 10).map (fun i => yearlyCost cd (i + 1)) := by
    refine List.map_congr_left (fun i hi => ?_)
    have : i < 10 := List.mem_range.mp hi
    exact yearlyCost_scheduleInRange cd (i + 1) (by omega) (by omega)
  simp only [calculate_10year_projection, hY,
    cumulThrough_scheduleInRange cd 10 (by norm_num)]
  rfl

/-- Index `y - 1` of `yearly_costs` is the row for year `y`. -/
lemma yearly_costs_get (cd : CostData) (y : Nat) (h1 : 1 ≤ y) (h2 : y ≤ 10)
    (h : y - 1 < ((calculate_10year_projection cd).yearly_costs).length) :
    ((calculate_10year_projection cd).yearly_costs).get ⟨y - 1, h⟩ = yearlyCost cd y := by
  have hy : y - 1 + 1 = y := by omega
  simp only [calculate_10year_projection, List.get_eq_getElem, List.getElem_map,
    List.getElem_range]
  rw [hy]

lemma unknown_prompt_lower_data (item lifespan price_type price unit : String) :
    (toLowerStr (complete_missing_data_prompt item ("Unknown") lifespan price_type
        price unit)).data
      = joinR (unkSegsLC item) := by
  unfold complete_missing_data_prompt
  rw [if_pos rfl]
  simp [toLowerStr, unkSegsLC, joinR, String.data_append, List.map_append,
    List.append_assoc]

lemma known_prompt_lower_data (item category lifespan price_type price unit : String)
    (hcat : category ≠ ("Unknown")) :
    (toLowerStr (complete_missing_data_prompt item category lifespan price_type
        price unit)).data
      = joinR (knoSegsLC item category lifespan price_type price unit) := by
  unfold complete_missing_data_prompt
  rw [if_neg hcat]
  simp [toLowerStr, knoSegsLC, joinR, String.data_append, List.map_append,
    List.append_assoc]

lemma upfront_prompt_lower_data (item category lifespan price unit : String)
    (severity : ℤ) :
    (toLowerStr (calculate_upfront_and_maintenance_prompt item category lifespan
        price unit severity)).data
      = joinR (upfSegsLC item category lifespan price unit severity) := by
  simp [toLowerStr, calculate_upfront_and_maintenance_prompt, upfSegsLC, joinR,
    String.data_append, List.map_append, List.append_assoc]

end PriceCalculator

open PriceCalculator in
/-- **C1.** In `calculate_10year_projection`, a maintenance event scheduled
in year `y` (`1 ≤ y ≤ 10`) with base cost `c` contributes exactly
`c * 1.15 * 1.045 ^ (y-1)` to that year's maintenance cost (the stored value
is that sum rounded to two decimals); events whose year lies outside 1..10
contribute nothing to any year or total; and the year-0 upfront cost is
carried without inflation or added contingency. -/
theorem C1_projection_inflation_and_contingency (cd : CostData) (y : Nat)
    (h1 : 1 ≤ y) (h2 : y ≤ 10)
    (h : y - 1 < ((calculate_10year_projection cd).yearly_costs).length) :
    (((calculate_10year_projection cd).yearly_costs).get ⟨y - 1, h⟩).maintenance_cost
      = round2 ((((scheduleOf cd).filter (fun m => m.year.getD 0 = (y : ℤ))).map
          (fun m => (m.cost_EUR.getD 0) * (23/20) * (209/200) ^ (y - 1))).sum)
    ∧ calculate_10year_projection cd = calculate_10year_projection (scheduleInRange cd)
    ∧ (calculate_10year_projection cd).year_0.upfront_cost
        = round2 (upfrontCostOf cd)
    ∧ (calculate_10year_projection cd).year_0.maintenance_cost = 0 := by
  refine ⟨?_, projection_scheduleInRange cd, rfl, rfl⟩
  rw [yearly_costs_get cd y h1 h2 h]
  show round2 (maintCostFor cd y) = _
  refine congrArg round2 (congrArg List.sum ?_)
  refine List.map_congr_left (fun m _ => ?_)
  show (m.cost_EUR.getD 0) * (1 + CONTINGENCY_BUFFER) * (1 + INFLATION_RATE) ^ (y - 1) = _
  have hc : (1 : ℚ) + CONTINGENCY_BUFFER = 23/20 := by
    norm_num [CONTINGENCY_BUFFER]
  have hi : (1 : ℚ) + INFLATION_RATE = 209/200 := by
    norm_num [INFLATION_RATE]
  rw [hc, hi]

open PriceCalculator in
/-- Witness for C1 at the mock cost data and year 5. -/
theorem C1_projection_inflation_and_contingency_witness :
    (((calculate_10year_projection mockCostData).yearly_costs).get
        ⟨5 - 1, by decide⟩).maintenance_cost
      = round2 ((((scheduleOf mockCostData).filter
            (fun m => m.year.getD 0 = ((5 : Nat) : ℤ))).map
          (fun m => (m.cost_EUR.getD 0) * (23/20) * (209/200) ^ (5 - 1))).sum)
    ∧ calculate_10year_projection mockCostData
        = calculate_10year_projection (scheduleInRange mockCostData)
    ∧ (calculate_10year_projection mockCostData).year_0.upfront_cost
        = round2 (upfrontCostOf mockCostData)
    ∧ (calculate_10year_projection mockCostData).year_0.maintenance_cost = 0 :=
  C1_projection_inflation_and_contingency mockCostData 5 (by decide) (by decide) (by decide)

open PriceCalculator in
/-- **C4.** The upfront repair cost is a one-time expense attributed only to
year 0: the year-0 row's `upfront_cost` and `total_cost` equal the upfront
repair cost (rounded to two decimals, as stored), every row for years 1-10
has `upfront_cost = 0` and `is_upfront = false`, and the upfront cost enters
the cumulative-cost sequence exactly once, at year 0: the year-`y` cumulative
cost is the upfront cost plus the maintenance of years 1..y. -/
theorem C4_upfront_cost_only_year0 (cd : CostData) :
    (calculate_10year_projection cd).year_0.upfront_cost = round2 (upfrontCostOf cd)
    ∧ (calculate_10year_projection cd).year_0.total_cost = round2 (upfrontCostOf cd)
    ∧ (calculate_10year_projection cd).year_0.cumulative_cost = round2 (upfrontCostOf cd)
    ∧ (calculate_10year_projection cd).year_0.is_upfront = true
    ∧ (∀ e ∈ (calculate_10year_projection cd).yearly_costs,
        e.upfront_cost = 0 ∧ e.is_upfront = false)
    ∧ (∀ (y : Nat), 1 ≤ y → y ≤ 10 →
        ∀ (h : y - 1 < ((calculate_10year_projection cd).yearly_costs).length),
          (((calculate_10year_projection cd).yearly_costs).get ⟨y - 1, h⟩).cumulative_cost
            = round2 (upfrontCostOf cd
                + ((List.range y).map (fun k => maintCostFor cd (k + 1))).sum)) := by
  refine ⟨rfl, rfl, rfl, rfl, ?_, ?_⟩
  · intro e he
    simp only [calculate_10year_projection, List.mem_map] at he
    obtain ⟨i, -, rfl⟩ := he
    exact ⟨rfl, rfl⟩
  · intro y h1 h2 h
    rw [yearly_costs_get cd y h1 h2 h]
    rfl

open PriceCalculator in
/-- Witness for C4 at the mock cost data. -/
theorem C4_upfront_cost_only_year0_witness :
    ((calculate_10year_projection mockCostData).year_0.upfront_cost
        = round2 (upfrontCostOf mockCostData)
      ∧ (calculate_10year_projection mockCostData).year_0.total_cost
        = round2 (upfrontCostOf mockCostData)
      ∧ (calculate_10year_projection mockCostData).year_0.cumulative_cost
        = round2 (upfrontCostOf mockCostData)
      ∧ (calculate_10year_projection mockCostData).year_0.is_upfront = true
      ∧ (∀ e ∈ (calculate_10year_projection mockCostData).yearly_costs,
          e.upfront_cost = 0 ∧ e.is_upfront = false)
      ∧ (∀ (y : Nat), 1 ≤ y → y ≤ 10 →
          ∀ (h : y - 1 < ((calculate_10year_projection mockCostData).yearly_costs).length),
            (((calculate_10year_projection mockCostData).yearly_costs).get
                ⟨y - 1, h⟩).cumulative_cost
              = round2 (upfrontCostOf mockCostData
                  + ((List.range y).map (fun k => maintCostFor mockCostData (k + 1))).sum)))
    ∧ 1 ≤ (9 : Nat) ∧ (9 : Nat) ≤ 10 :=
  ⟨C4_upfront_cost_only_year0 mockCostData, by decide, by decide⟩

open PriceCalculator in
/-- **C6.** `analyze_damage` issues the data-completion LLM call if and only
if the CSV lookup does not yield complete data: when the looked-up row (the
first match) has `Price (EUR)`, `Unit`, `Lifespan (Years)` and `Price Type`
all present (not `'-'`, not NaN) and they convert to their expected types,
the component data comes directly from the CSV with source `'csv_direct'`
and no completion call is made; otherwise (no match, a missing field, or a
conversion failure) the completion prompt is issued. -/
theorem C6_csv_direct_iff_complete (damage_item : String) (df : List CsvRow)
    (llm : LLMCompletion) :
    ((analyze_damage_data_step damage_item df llm).2 = false
      ↔ ∃ row, (find_damage_in_csv df damage_item).head? = some row
          ∧ (parse_csv_data row).isSome)
    ∧ ((analyze_damage_data_step damage_item df llm).2 = false →
        (analyze_damage_data_step damage_item df llm).1.source = ("csv_direct"))
    ∧ (∀ row, (parse_csv_data row).isSome
        ↔ (isDashOrNaN row.price_EUR = false ∧ isDashOrNaN row.unit = false
            ∧ isDashOrNaN row.lifespan_years = false
            ∧ isDashOrNaN row.price_type = false
            ∧ (pyCellInt row.lifespan_years).isSome
            ∧ (pyCellFloat row.price_EUR).isSome)) := by
  refine ⟨?_, ?_, ?_⟩
  · cases h : (find_damage_in_csv df damage_item).head? with
    | none =>
      simp only [analyze_damage_data_step, h]
      cases llm <;> simp
    | some row =>
      cases hp : parse_csv_data row with
      | none =>
        simp only [analyze_damage_data_step, h, hp]
        cases llm <;> simp [hp]
      | some d =>
        simp only [analyze_damage_data_step, h, hp]
        exact ⟨fun _ => ⟨row, rfl, by simp [hp]⟩, fun _ => by simp⟩
  · cases h : (find_damage_in_csv df damage_item).head? with
    | none =>
      simp only [analyze_damage_data_step, h]
      cases llm <;> simp
    | some row =>
      cases hp : parse_csv_data row with
      | none =>
        simp only [analyze_damage_data_step, h, hp]
        cases llm <;> simp
      | some d =>
        simp only [analyze_damage_data_step, h, hp]
        intro
        have hd : d.source = ("csv_direct") := by
          revert hp
          unfold parse_csv_data
          split
          · intro hc; cases hc
          · cases hl : pyCellInt row.lifespan_years with
            | none => intro hc; cases hc
            | some l =>
              cases hf : pyCellFloat row.price_EUR with
              | none => intro hc; cases hc
              | some p => intro hc; cases hc; rfl
        exact hd
  · intro row
    unfold parse_csv_data
    constructor
    · intro hs
      by_cases hif : (isDashOrNaN row.price_EUR || isDashOrNaN row.unit
          || isDashOrNaN row.lifespan_years || isDashOrNaN row.price_type) = true
      · rw [if_pos hif] at hs; cases hs
      · rw [if_neg hif] at hs
        simp only [Bool.or_eq_true, not_or, Bool.not_eq_true] at hif
        refine ⟨hif.1.1.1, hif.1.1.2, hif.1.2, hif.2, ?_, ?_⟩
        · cases hl : pyCellInt row.lifespan_years with
          | none => rw [hl] at hs; cases hs
          | some l => simp
        · cases hf : pyCellFloat row.price_EUR with
          | none =>
            rw [hf] at hs
            cases hl : pyCellInt row.lifespan_years <;> rw [hl] at hs <;> cases hs
          | some p => simp
    · rintro ⟨h1, h2, h3, h4, h5, h6⟩
      rw [if_neg (by simp [h1, h2, h3, h4])]
      obtain ⟨l, hl⟩ := Option.isSome_iff_exists.mp h5
      obtain ⟨p, hp⟩ := Option.isSome_iff_exists.mp h6
      rw [hl, hp]
      simp

open PriceCalculator in
/-- Witness for C6: with a one-row database whose `Boiler` row is complete,
the lookup for "Boiler" uses the CSV directly and makes no LLM call. -/
theorem C6_csv_direct_iff_complete_witness :
    ((analyze_damage_data_step ("Boiler")
        [{ category := .str ("Heating / Ventilation / Climate")
           item_subitem := .str ("Boiler"), lifespan_years := .num 20
           price_type := .str ("Replacement"), price_EUR := .num 5000
           unit := .str ("per piece") }] LLMCompletion.parseError).2 = false
      ↔ ∃ row, (find_damage_in_csv
            [{ category := .str ("Heating / Ventilation / Climate")
               item_subitem := .str ("Boiler"), lifespan_years := .num 20
               price_type := .str ("Replacement"), price_EUR := .num 5000
               unit := .str ("per piece") }] ("Boiler")).head? = some row
          ∧ (parse_csv_data row).isSome) :=
  (C6_csv_direct_iff_complete ("Boiler")
    [{ category := .str ("Heating / Ventilation / Climate")
       item_subitem := .str ("Boiler"), lifespan_years := .num 20
       price_type := .str ("Replacement"), price_EUR := .num 5000
       unit := .str ("per piece") }] LLMCompletion.parseError).1

open AppEndpoints in
/-- **C5 (counterexample).** The claim fails for `/calculate-price`: a
request item with severity 7 is forwarded to the price calculator unchanged
(pydantic only checks that `severity` is an `int`; there is no clamp or
range validation in that handler), so the severity used as the pricing
lookup key does not lie in 1..5. -/
theorem C5_calculate_price_severity_counterexample :
    calculate_price_forwarded_severities [⟨("Boiler"), 7⟩] = [7]
    ∧ ¬ (∀ s ∈ calculate_price_forwarded_severities [⟨("Boiler"), 7⟩],
          1 ≤ s ∧ s ≤ 5) := by
  refine ⟨rfl, ?_⟩
  intro hall
  have := hall 7 (by simp [calculate_price_forwarded_severities])
  omega

open AppEndpoints in
/-- **C5 (amended).** In the `/detect-and-price` pipeline every severity
taken from a detection annotation (absent, integer, or string, with string
values parsed as `int` and defaulting to 3) is clamped to 1..5 before
pricing; `/calculate-price`, by contrast, forwards each request item's
severity to the price calculator unchanged and unvalidated. -/
theorem C5_severity_clamping_amended (sev : Option JsonSeverity)
    (items : List ReqDamageItem) :
    (1 ≤ detect_and_price_severity sev ∧ detect_and_price_severity sev ≤ 5)
    ∧ calculate_price_forwarded_severities items = items.map (fun d => d.severity) := by
  refine ⟨⟨?_, ?_⟩, rfl⟩
  · exact le_max_left 1 _
  · exact max_le (by norm_num) (min_le_left 5 _)

set_option maxRecDepth 40000 in
open PriceCalculator in
/-- **C7 (code bug).** With `use_mock = True`, `call_ai_model` returns a
canned mock only when the lowercased prompt contains one of the trigger
phrases.  The data-completion prompt for an item found in the database
contains "complete the missing", and the upfront-and-maintenance prompt
contains "upfront repair cost", so those two get mock responses — but the
prompt for an item NOT found in the database (here "crack") contains none of
the triggers, so `call_ai_model` falls through to a real Gemini API request
even in mock mode. -/
theorem C7_mock_gap_unknown_item_prompt :
    call_ai_model (complete_missing_data_prompt ("crack") ("Unknown") ("-") ("-")
        ("-") ("-")) true
      = AIResponse.realApiCall
    ∧ call_ai_model (complete_missing_data_prompt ("Boiler")
        ("Heating / Ventilation / Climate") ("20.0") ("Replacement") ("5000.0")
        ("per piece")) true
      = AIResponse.mockCompletion
    ∧ call_ai_model (calculate_upfront_and_maintenance_prompt ("Boiler")
        ("Heating / Ventilation / Climate") ("20") ("5000.0") ("per piece") 5) true
      = AIResponse.mockUpfront := by
  refine ⟨?_, ?_, ?_⟩
  · have e1 : containsSub ("complete missing data")
        (toLowerStr (complete_missing_data_prompt ("crack") ("Unknown") ("-") ("-")
          ("-") ("-"))) = false := by
      rw [containsSub_eval _ _ (unkSegsLC ("crack")) (by decide) (by decide)
        (unknown_prompt_lower_data ("crack") ("-") ("-") ("-") ("-"))]
      decide
    have e2 : containsSub ("complete the missing")
        (toLowerStr (complete_missing_data_prompt ("crack") ("Unknown") ("-") ("-")
          ("-") ("-"))) = false := by
      rw [containsSub_eval _ _ (unkSegsLC ("crack")) (by decide) (by decide)
        (unknown_prompt_lower_data ("crack") ("-") ("-") ("-") ("-"))]
      decide
    have e3 : containsSub ("calculate upfront")
        (toLowerStr (complete_missing_data_prompt ("crack") ("Unknown") ("-") ("-")
          ("-") ("-"))) = false := by
      rw [containsSub_eval _ _ (unkSegsLC ("crack")) (by decide) (by decide)
        (unknown_prompt_lower_data ("crack") ("-") ("-") ("-") ("-"))]
      decide
    have e4 : containsSub ("upfront repair cost")
        (toLowerStr (complete_missing_data_prompt ("crack") ("Unknown") ("-") ("-")
          ("-") ("-"))) = false := by
      rw [containsSub_eval _ _ (unkSegsLC ("crack")) (by decide) (by decide)
        (unknown_prompt_lower_data ("crack") ("-") ("-") ("-") ("-"))]
      decide
    simp [call_ai_model, e1, e2, e3, e4]
  · have e2 : containsSub ("complete the missing")
        (toLowerStr (complete_missing_data_prompt ("Boiler")
          ("Heating / Ventilation / Climate") ("20.0") ("Replacement") ("5000.0")
          ("per piece"))) = true := by
      rw [containsSub_eval _ _
        (knoSegsLC ("Boiler") ("Heating / Ventilation / Climate") ("20.0")
          ("Replacement") ("5000.0") ("per piece")) (by decide) (by decide)
        (known_prompt_lower_data ("Boiler") ("Heating / Ventilation / Climate")
          ("20.0") ("Replacement") ("5000.0") ("per piece") (by decide))]
      decide
    simp [call_ai_model, e2]
  · have e1 : containsSub ("complete missing data")
        (toLowerStr (calculate_upfront_and_maintenance_prompt ("Boiler")
          ("Heating / Ventilation / Climate") ("20") ("5000.0") ("per piece") 5))
        = false := by
      rw [containsSub_eval _ _
        (upfSegsLC ("Boiler") ("Heating / Ventilation / Climate") ("20") ("5000.0")
          ("per piece") 5) (by decide) (by decide)
        (upfront_prompt_lower_data ("Boiler") ("Heating / Ventilation / Climate")
          ("20") ("5000.0") ("per piece") 5)]
      decide
    have e2 : containsSub ("complete the missing")
        (toLowerStr (calculate_upfront_and_maintenance_prompt ("Boiler")
          ("Heating / Ventilation / Climate") ("20") ("5000.0") ("per piece") 5))
        = false := by
      rw [containsSub_eval _ _
        (upfSegsLC ("Boiler") ("Heating / Ventilation / Climate") ("20") ("5000.0")
          ("per piece") 5) (by decide) (by decide)
        (upfront_prompt_lower_data ("Boiler") ("Heating / Ventilation / Climate")
          ("20") ("5000.0") ("per piece") 5)]
      decide
    have e4 : containsSub ("upfront repair cost")
        (toLowerStr (calculate_upfront_and_maintenance_prompt ("Boiler")
          ("Heating / Ventilation / Climate") ("20") ("5000.0") ("per piece") 5))
        = true := by
      rw [containsSub_eval _ _
        (upfSegsLC ("Boiler") ("Heating / Ventilation / Climate") ("20") ("5000.0")
          ("per piece") 5) (by decide) (by decide)
        (upfront_prompt_lower_data ("Boiler") ("Heating / Ventilation / Climate")
          ("20") ("5000.0") ("per piece") 5)]
      decide
    simp [call_ai_model, e1, e2, e4]

open GetBbox in
/-- **C8 (counterexample).** The claim's dichotomy — annotation dict on
decode success, empty dict on decode failure — fails: for the response text
`"x\n5\ny"` the stripped middle line `"5"` decodes successfully
(`json.loads("5") = 5`), but then the drawing loop's `for item in 5:` raises
an uncaught `TypeError`, so `get_bbox` returns neither the annotation dict
nor the empty dict. -/
theorem C8_get_bbox_raise_counterexample :
    (fun (decode : String → Option Json) =>
      decode (stripFirstLastLines ("x\n5\ny")) = some (Json.num 5)
      ∧ get_bbox decode ("temp_uploads/wall_input.png") ("Building Envelope")
          ("x\n5\ny") = GetBboxOutcome.raised
      ∧ ¬ (get_bbox decode ("temp_uploads/wall_input.png") ("Building Envelope")
              ("x\n5\ny") = GetBboxOutcome.emptyDict
          ∨ ∃ r, get_bbox decode ("temp_uploads/wall_input.png") ("Building Envelope")
              ("x\n5\ny") = GetBboxOutcome.result r))
    (fun s => if s = ("5") then some (Json.num 5) else none) := by
  refine ⟨rfl, rfl, ?_⟩
  rintro (h | ⟨r, h⟩) <;> exact GetBboxOutcome.noConfusion h

open GetBbox in
/-- **C8 (amended).** For every image path, chosen category, model response
text and decoder, `get_bbox` strips the first and last lines of the
(whitespace-trimmed) response before JSON decoding; when decoding fails it
returns the empty dict; when decoding succeeds and the payload lets the
drawing loop complete (`drawLoopOk`: a list of objects each with a 4-element
numeric `box_2d` and a `label`, or a payload iterating zero times) it
returns the annotation JSON whose `imageID` is the image filename without
extension, whose `detected_category` is the chosen category and whose
`annotation` is the decoded payload; and when the payload breaks the drawing
loop the function raises an uncaught exception and returns nothing. -/
theorem C8_get_bbox_parse_raise_and_error_path (decode : String → Option Json)
    (path_to_image detected_category response_text : String) :
    (get_bbox decode path_to_image detected_category response_text
        = GetBboxOutcome.emptyDict
      ↔ decode (stripFirstLastLines response_text) = none)
    ∧ (∀ parsed, decode (stripFirstLastLines response_text) = some parsed →
        drawLoopOk parsed = true →
        get_bbox decode path_to_image detected_category response_text
          = GetBboxOutcome.result
              ⟨splitextRoot (basename path_to_image), detected_category, parsed⟩)
    ∧ (∀ parsed, decode (stripFirstLastLines response_text) = some parsed →
        drawLoopOk parsed = false →
        get_bbox decode path_to_image detected_category response_text
          = GetBboxOutcome.raised) := by
  refine ⟨?_, ?_, ?_⟩
  · unfold get_bbox
    cases h : decode (stripFirstLastLines response_text) with
    | none => simp
    | some j =>
      by_cases hd : drawLoopOk j = true <;> simp [hd]
  · intro parsed h hd
    unfold get_bbox
    rw [h]
    simp [hd]
  · intro parsed h hd
    unfold get_bbox
    rw [h]
    simp [hd]

open GetBbox in
/-- Witness for the amended C8: a decoder that accepts exactly the middle
line of a fenced response, whose empty-list payload lets the drawing loop
complete, applied to `temp_uploads/wall_input.png`. -/
theorem C8_get_bbox_parse_raise_and_error_path_witness :
    get_bbox (fun s => if s = ("[]") then some (Json.arr []) else none)
        ("temp_uploads/wall_input.png") ("Building Envelope") ("```json\n[]\n```")
      = GetBboxOutcome.result
          ⟨splitextRoot (basename ("temp_uploads/wall_input.png")),
           ("Building Envelope"), Json.arr []⟩ :=
  (C8_get_bbox_parse_raise_and_error_path
    (fun s => if s = ("[]") then some (Json.arr []) else none)
    ("temp_uploads/wall_input.png") ("Building Envelope")
    ("```json\n[]\n```")).2.1 (Json.arr []) rfl rfl

open Scraper in
/-- **C10.** `fetch_immo24_listing` raises `ValueError` if and only if the
URL is empty or no supported-site pattern (`immobilienscout24.de`,
`immoscout24.de`, `immo24`, `immowelt.de`) occurs in the lowercased URL; the
`/immo24/scrape` endpoint maps a `ValueError` to HTTP 400 and any other
exception to HTTP 500, and passes a successful result through. -/
theorem C10_fetch_value_error_iff_unsupported (url : String)
    (bw bs : BranchResult) :
    ((∃ m, fetch_immo24_listing url bw bs = PyResult.valueError m)
      ↔ (url = ("") ∨ detect_site url = none))
    ∧ (detect_site url = none
        ↔ ¬ (containsSub ("immobilienscout24.de") (toLowerStr url) = true
              ∨ containsSub ("immoscout24.de") (toLowerStr url) = true
              ∨ containsSub ("immo24") (toLowerStr url) = true
              ∨ containsSub ("immowelt.de") (toLowerStr url) = true))
    ∧ (∀ m, fetch_immo24_listing url bw bs = PyResult.valueError m →
        scrape_immo24_listing url bw bs = HttpOutcome.error 400 m)
    ∧ (∀ m, fetch_immo24_listing url bw bs = PyResult.otherError m →
        scrape_immo24_listing url bw bs
          = HttpOutcome.error 500 (("Unable to process listing: ") ++ m))
    ∧ (fetch_immo24_listing url bw bs = PyResult.ok →
        scrape_immo24_listing url bw bs = HttpOutcome.ok) := by
  refine ⟨?_, ?_, ?_, ?_, ?_⟩
  · by_cases hu : url = ("")
    · simp [fetch_immo24_listing, hu]
    · cases hd : detect_site url with
      | none => simp [fetch_immo24_listing, hu, hd]
      | some site =>
        simp only [fetch_immo24_listing, if_neg hu, hd]
        constructor
        · rintro ⟨m, hm⟩
          split at hm <;> cases bw <;> cases bs <;> simp [liftBranch] at hm
        · rintro (h | h)
          · exact absurd h hu
          · cases h
  · cases h1 : containsSub ("immobilienscout24.de") (toLowerStr url) <;>
      cases h2 : containsSub ("immoscout24.de") (toLowerStr url) <;>
      cases h3 : containsSub ("immo24") (toLowerStr url) <;>
      cases h4 : containsSub ("immowelt.de") (toLowerStr url) <;>
      simp [detect_site, SUPPORTED_SITES, List.find?, h1, h2, h3, h4]
  · intro m h
    simp [scrape_immo24_listing, h]
  · intro m h
    simp [scrape_immo24_listing, h]
  · intro h
    simp [scrape_immo24_listing, h]

open Scraper in
/-- Witness for C10: an unsupported URL yields the `ValueError`/HTTP 400
path, demonstrated on `https://www.example.com/listing/1`. -/
theorem C10_fetch_value_error_iff_unsupported_witness :
    (∃ m, fetch_immo24_listing ("https://www.example.com/listing/1")
        BranchResult.ok BranchResult.ok = PyResult.valueError m)
    ∧ detect_site ("https://www.example.com/listing/1") = none :=
  ⟨(C10_fetch_value_error_iff_unsupported ("https://www.example.com/listing/1")
      BranchResult.ok BranchResult.ok).1.mpr (Or.inr (by decide)),
   by decide⟩
